import Mathlib

/-!
Verification of the scheduler + publish pipeline (KintaroAI/x).

Shallow embedding of the Python source:
  * `src/utils/state_machine.py`   — job state machine and atomic status update,
  * `src/models.py` + migration `4d9908c6590d` — PublishJob table and its
    UNIQUE (schedule_id, planned_at) constraint,
  * `src/api/posts.py::delete_post` — soft-delete cancellation sweep,
  * `src/tasks/publish.py`         — worker success path (PublishedPost idempotency),
  * `src/services/scheduler_service.py` — one_shot / cron / rrule resolution,
  * `src/services/variant_service.py`   — deterministic variant selection.

Python `datetime` values are modelled by `PyDateTime`: the instant in
microseconds on the UTC timeline (naive datetimes are interpreted as UTC,
the storage convention of this codebase) together with an optional UTC
offset in minutes (`none` = naive).  Database rows are Lean structures,
tables are lists, and fallible operations return `Except`/`Option`.
-/

/-- Model of a Python `datetime`: `usec` is the instant in microseconds since
the Unix epoch on the UTC timeline (naive values are read as UTC, the storage
convention of the source), `tz` is the UTC offset in minutes carried by the
value (`none` for a naive datetime). -/
structure PyDateTime where
  usec : Int
  tz : Option Int
deriving DecidableEq, Repr

namespace PyDateTime

/-- `pytz.UTC.localize` on a naive value / `astimezone(pytz.UTC)` on an aware
value: both attach UTC without moving the instant. -/
def toUTC (d : PyDateTime) : PyDateTime := { usec := d.usec, tz := some 0 }

/-- `astimezone(tz)` for a zone sitting at offset `off` minutes: the instant is
unchanged, only the carried offset changes. -/
def astimezoneOffset (off : Int) (d : PyDateTime) : PyDateTime :=
  { usec := d.usec, tz := some off }

/-- `.astimezone(pytz.UTC).replace(tzinfo=None)` — the source's storage
normalization: strip the zone, keeping the UTC wall clock (= the instant). -/
def toNaiveUTC (d : PyDateTime) : PyDateTime := { usec := d.usec, tz := none }

/-- Floor an instant in microseconds down to whole seconds
(`replace(microsecond=0)` on a UTC-normalized value). -/
def floorSecUsec (u : Int) : Int := (Int.fdiv u 1000000) * 1000000

/-- `replace(microsecond=0)` applied after UTC normalization. -/
def replaceMicrosecond0 (d : PyDateTime) : PyDateTime :=
  { usec := floorSecUsec d.usec, tz := d.tz }

/-- Python comparison `a <= b` between two datetimes: defined only when both
are naive or both are aware; mixing raises `TypeError` (modelled as `none`). -/
def pyLe (a b : PyDateTime) : Option Bool :=
  match a.tz, b.tz with
  | none, none => some (decide (a.usec ≤ b.usec))
  | some _, some _ => some (decide (a.usec ≤ b.usec))
  | _, _ => none

end PyDateTime

/-! ## Job state machine (`src/utils/state_machine.py`) -/

/-- Association-list model of a Python `dict` keyed by strings. -/
def dictGet (m : List (String × List String)) (k : String) : Option (List String) :=
  match m with
  | [] => none
  | (k2, v) :: rest => if k = k2 then some v else dictGet rest k

/-- `PublishJobStateMachine.VALID_TRANSITIONS` (state_machine.py lines 29-49). -/
def VALID_TRANSITIONS : List (String × List String) :=
  [ ("planned", ["enqueued", "cancelled"]),
    ("enqueued", ["running", "cancelled"]),
    ("running", ["succeeded", "failed"]),
    ("failed", ["running", "dead_letter"]),
    ("succeeded", []),
    ("dead_letter", []),
    ("cancelled", []) ]

/-- `PublishJobStateMachine.TERMINAL_STATES` (state_machine.py lines 52-56). -/
def TERMINAL_STATES : List String := ["succeeded", "dead_letter", "cancelled"]

/-- `PublishJobStateMachine.is_valid_transition`: unknown `from_status` is
rejected, otherwise membership in the dict entry. -/
def is_valid_transition (from_status to_status : String) : Bool :=
  match dictGet VALID_TRANSITIONS from_status with
  | none => false
  | some allowed => to_status ∈ allowed

/-- `PublishJobStateMachine.is_terminal_state`. -/
def is_terminal_state (status : String) : Bool := status ∈ TERMINAL_STATES

/-- `src/models.py::PublishJob` — the columns touched by the operations under
verification. -/
structure PublishJob where
  id : Nat
  schedule_id : Nat
  planned_at : PyDateTime
  enqueued_at : Option PyDateTime := none
  started_at : Option PyDateTime := none
  finished_at : Option PyDateTime := none
  status : String
  attempt : Int := 0
  error : Option String := none
  dedupe_key : Option String := none
  created_at : PyDateTime
  updated_at : PyDateTime
  variant_id : Option Nat := none
  selection_policy : Option String := none
  selection_seed : Option Int := none
  selected_at : Option PyDateTime := none
deriving DecidableEq, Repr

/-- One `key=value` item of the `**kwargs` of `update_job_status`.  The Python
loop sets the attribute when the job has it and skips unknown names
(`hasattr` guard, state_machine.py lines 130-135); `unknown_field` models a
name the row does not have. -/
inductive JobUpdate where
  | set_started_at (v : Option PyDateTime)
  | set_finished_at (v : Option PyDateTime)
  | set_enqueued_at (v : Option PyDateTime)
  | set_error (v : Option String)
  | set_attempt (v : Int)
  | unknown_field
deriving DecidableEq, Repr

/-- `setattr(job, key, value)` for one kwargs item. -/
def applyJobUpdate (job : PublishJob) (u : JobUpdate) : PublishJob :=
  match u with
  | .set_started_at v => { job with started_at := v }
  | .set_finished_at v => { job with finished_at := v }
  | .set_enqueued_at v => { job with enqueued_at := v }
  | .set_error v => { job with error := v }
  | .set_attempt v => { job with attempt := v }
  | .unknown_field => job

/-- The kwargs loop of `update_job_status`. -/
def applyJobUpdates (job : PublishJob) (us : List JobUpdate) : PublishJob :=
  us.foldl applyJobUpdate job

/-- `db.query(PublishJob).filter(PublishJob.id == job_id).first()`. -/
def find_job (db : List PublishJob) (job_id : Nat) : Option PublishJob :=
  db.find? (fun j => j.id = job_id)

/-- Write back the locked row: every row with the job's id takes the updated
value (the id is the primary key, so at most one row is touched). -/
def storeJob (db : List PublishJob) (job : PublishJob) : List PublishJob :=
  db.map (fun j => if j.id = job.id then job else j)

/-- `src/utils/state_machine.py::update_job_status` (lines 88-141): look the
row up under `FOR UPDATE`, validate the edge (`validate_transition` raises on
an invalid one *before* any field is written), then set `status`,
`updated_at = now` and the caller's kwargs, and commit.  An exception
propagates out of the `get_db()` context manager, which rolls the transaction
back, so an error persists nothing — hence the `Except`. -/
def update_job_status (db : List PublishJob) (job_id : Nat) (new_status : String)
    (kwargs : List JobUpdate) (now : PyDateTime) :
    Except String (List PublishJob × PublishJob) :=
  match find_job db job_id with
  | none => .error "Job not found"
  | some job =>
    if is_valid_transition job.status new_status then
      let job2 := applyJobUpdates { job with status := new_status, updated_at := now } kwargs
      .ok (storeJob db job2, job2)
    else
      .error "Invalid state transition"

/-- The persisted table after `update_job_status`: the rollback of `get_db()`
leaves the table untouched when the update raises. -/
def run_update_job_status (db : List PublishJob) (job_id : Nat) (new_status : String)
    (kwargs : List JobUpdate) (now : PyDateTime) : List PublishJob :=
  match update_job_status db job_id new_status kwargs now with
  | .ok (db2, _) => db2
  | .error _ => db

/-- The transition table of the claim, as explicit edges. -/
def VALID_EDGES : List (String × String) :=
  [ ("planned", "enqueued"), ("planned", "cancelled"),
    ("enqueued", "running"), ("enqueued", "cancelled"),
    ("running", "succeeded"), ("running", "failed"),
    ("failed", "running"), ("failed", "dead_letter") ]

/-- `src/tasks/publish.py` lines 59-65: the worker's step-2 transition of the
job into `running`, with `started_at = now` and `attempt = attempt + 1`. -/
def publish_step2 (db : List PublishJob) (job_id : Nat) (current_attempt : Int)
    (now : PyDateTime) : Except String (List PublishJob × PublishJob) :=
  update_job_status db job_id "running"
    [JobUpdate.set_started_at (some now), JobUpdate.set_attempt (current_attempt + 1)] now

theorem is_valid_transition_iff_mem (s t : String) :
    is_valid_transition s t = true ↔ (s, t) ∈ VALID_EDGES := by
  simp only [is_valid_transition, VALID_TRANSITIONS, dictGet, VALID_EDGES]
  split_ifs with h1 h2 h3 h4 h5 h6 h7 <;>
    simp_all [List.mem_cons, Prod.ext_iff, decide_eq_true_eq]

/-- The persisted table after the worker's step-2 transition (`get_db()`
rollback on error). -/
def run_publish_step2 (db : List PublishJob) (job_id : Nat) (current_attempt : Int)
    (now : PyDateTime) : List PublishJob :=
  match publish_step2 db job_id current_attempt now with
  | .ok (db2, _) => db2
  | .error _ => db

/-- C1: `update_job_status` succeeds exactly when the (old status, new status)
edge is in the transition table {planned→enqueued|cancelled,
enqueued→running|cancelled, running→succeeded|failed, failed→running|dead_letter};
on an invalid edge it raises and the job table is unchanged (no field of the
job, including status and updated_at, is modified). -/
theorem update_job_status_edge_sound (db : List PublishJob) (job_id : Nat)
    (new_status : String) (kwargs : List JobUpdate) (now : PyDateTime)
    (job : PublishJob) (hfind : find_job db job_id = some job) :
    ((update_job_status db job_id new_status kwargs now).isOk = true
       ↔ (job.status, new_status) ∈ VALID_EDGES)
    ∧ ((job.status, new_status) ∉ VALID_EDGES →
        (∃ e, update_job_status db job_id new_status kwargs now = Except.error e)
        ∧ run_update_job_status db job_id new_status kwargs now = db) := by
  have hiff := is_valid_transition_iff_mem job.status new_status
  constructor
  · unfold update_job_status
    rw [hfind]
    by_cases h : is_valid_transition job.status new_status
    · simp [h, Except.isOk, Except.toBool, hiff.mp h]
    · have : (job.status, new_status) ∉ VALID_EDGES := fun hm => h (hiff.mpr hm)
      simp [h, Except.isOk, Except.toBool, this]
  · intro hnm
    have h : is_valid_transition job.status new_status = false := by
      by_contra hc
      exact hnm (hiff.mp (by simpa using hc))
    unfold run_update_job_status update_job_status
    rw [hfind]
    simp [h]

theorem update_job_status_edge_sound_witness :
    (update_job_status
      [{ id := 1, schedule_id := 7, planned_at := ⟨0, none⟩, status := "planned",
         created_at := ⟨0, none⟩, updated_at := ⟨0, none⟩ }]
      1 "enqueued" [] ⟨5, none⟩).isOk = true := by
  exact (update_job_status_edge_sound
      [{ id := 1, schedule_id := 7, planned_at := ⟨0, none⟩, status := "planned",
         created_at := ⟨0, none⟩, updated_at := ⟨0, none⟩ }]
      1 "enqueued" [] ⟨5, none⟩
      { id := 1, schedule_id := 7, planned_at := ⟨0, none⟩, status := "planned",
        created_at := ⟨0, none⟩, updated_at := ⟨0, none⟩ }
      (by decide)).1.mpr (by decide)

/-- C3 as stated is false: a job still in `planned` is *not* accepted into
`running` by the worker's step-2 update — `planned → running` is not in
`VALID_TRANSITIONS`, so `update_job_status` raises and the row is unchanged
(publish.py lines 59-65 call `update_job_status(job_id, "running", ...)`,
which `validate_transition` rejects; tests/test_state_machine.py asserts this
very rejection). -/
theorem publish_step2_from_planned_counterexample :
    (publish_step2
      [{ id := 1, schedule_id := 7, planned_at := ⟨0, none⟩, status := "planned",
         created_at := ⟨0, none⟩, updated_at := ⟨0, none⟩ }]
      1 0 ⟨5, none⟩).isOk = false
    ∧ is_valid_transition "planned" "running" = false := by decide

/-- C3 amended: when the worker processes a job whose status is still
`planned`, its step-2 transition into `running` is rejected by the state
machine (the update raises and persists nothing); the step-2 update succeeds
from `enqueued` (and, on the retry path, from `failed`). -/
theorem publish_step2_planned_rejected (db : List PublishJob) (job_id : Nat)
    (current_attempt : Int) (now : PyDateTime) (job : PublishJob)
    (hfind : find_job db job_id = some job) :
    (job.status = "planned" →
      (∃ e, publish_step2 db job_id current_attempt now = Except.error e)
      ∧ run_publish_step2 db job_id current_attempt now = db)
    ∧ (job.status = "enqueued" ∨ job.status = "failed" →
      (publish_step2 db job_id current_attempt now).isOk = true) := by
  have hsound := update_job_status_edge_sound db job_id "running"
    [JobUpdate.set_started_at (some now), JobUpdate.set_attempt (current_attempt + 1)]
    now job hfind
  constructor
  · intro hp
    have hnm : (job.status, "running") ∉ VALID_EDGES := by
      rw [hp]; decide
    have h2 := hsound.2 hnm
    refine ⟨h2.1, ?_⟩
    unfold run_publish_step2 publish_step2
    obtain ⟨e, he⟩ := h2.1
    rw [he]
  · intro hs
    apply hsound.1.mpr
    rcases hs with h | h <;> rw [h] <;> decide

theorem publish_step2_planned_rejected_witness :
    ∃ e, publish_step2
      [{ id := 1, schedule_id := 7, planned_at := ⟨0, none⟩, status := "planned",
         created_at := ⟨0, none⟩, updated_at := ⟨0, none⟩ }]
      1 0 ⟨5, none⟩ = Except.error e :=
  ((publish_step2_planned_rejected
      [{ id := 1, schedule_id := 7, planned_at := ⟨0, none⟩, status := "planned",
         created_at := ⟨0, none⟩, updated_at := ⟨0, none⟩ }]
      1 0 ⟨5, none⟩
      { id := 1, schedule_id := 7, planned_at := ⟨0, none⟩, status := "planned",
        created_at := ⟨0, none⟩, updated_at := ⟨0, none⟩ }
      (by decide)).1 rfl).1

/-! ## PublishJob uniqueness (`migration 4d9908c6590d`, `src/tasks/scheduler.py`) -/

/-- The key of the UNIQUE constraint `unique_schedule_planned_at` that
migration `4d9908c6590d_add_missing_fields_to_job_and_schedules.py` creates on
`publish_jobs (schedule_id, planned_at)`. -/
def fireKey (j : PublishJob) : Nat × PyDateTime := (j.schedule_id, j.planned_at)

/-- The table-level invariant the constraint maintains: no two rows share a
`(schedule_id, planned_at)` pair. -/
def unique_schedule_planned_at (jobs : List PublishJob) : Prop :=
  jobs.Pairwise (fun a b => fireKey a ≠ fireKey b)

/-- An INSERT into `publish_jobs` as the database executes it: the UNIQUE
constraint rejects the row when some existing row already carries the same
`(schedule_id, planned_at)` (scheduler_tick's `db.add(job)`/`db.flush()`,
scheduler.py lines 76-91, hits exactly this constraint). -/
def insert_publish_job (jobs : List PublishJob) (job : PublishJob) :
    Except String (List PublishJob) :=
  if jobs.any (fun j => fireKey j = fireKey job) then
    .error "duplicate key value violates unique constraint"
  else
    .ok (jobs ++ [job])

/-- C2: the UNIQUE `(schedule_id, planned_at)` constraint admits an insert
exactly when no existing row shares the pair, and it maintains the invariant
that every pair of rows differs on `(schedule_id, planned_at)` — after a
successful insert exactly one row carries the new job's key. -/
theorem insert_publish_job_unique (jobs : List PublishJob) (job : PublishJob)
    (hinv : unique_schedule_planned_at jobs) :
    ((insert_publish_job jobs job).isOk = true ↔ ∀ j ∈ jobs, fireKey j ≠ fireKey job)
    ∧ (∀ jobs2, insert_publish_job jobs job = Except.ok jobs2 →
        unique_schedule_planned_at jobs2
        ∧ jobs2.countP (fun j => fireKey j = fireKey job) = 1) := by
  by_cases hb : jobs.any (fun j => fireKey j = fireKey job) = true
  · have hex : ∃ j ∈ jobs, fireKey j = fireKey job := by simpa using hb
    obtain ⟨j0, hj0, hk0⟩ := hex
    refine ⟨⟨?_, ?_⟩, ?_⟩
    · intro hok
      exfalso
      unfold insert_publish_job at hok
      rw [if_pos hb] at hok
      simp [Except.isOk, Except.toBool] at hok
    · intro hall
      exact absurd hk0 (hall j0 hj0)
    · intro jobs2 heq
      unfold insert_publish_job at heq
      rw [if_pos hb] at heq
      cases heq
  · have hall : ∀ j ∈ jobs, fireKey j ≠ fireKey job := by
      intro j hj hk
      exact hb (by simp only [List.any_eq_true]; exact ⟨j, hj, by simpa using hk⟩)
    refine ⟨⟨?_, ?_⟩, ?_⟩
    · intro _; exact hall
    · intro _
      unfold insert_publish_job
      rw [if_neg hb]
      rfl
    · intro jobs2 heq
      unfold insert_publish_job at heq
      rw [if_neg hb] at heq
      injection heq with heq
      subst heq
      refine ⟨?_, ?_⟩
      · unfold unique_schedule_planned_at at hinv ⊢
        rw [List.pairwise_append]
        refine ⟨hinv, List.pairwise_singleton _ _, ?_⟩
        intro a ha b hbmem
        simp only [List.mem_singleton] at hbmem
        subst hbmem
        exact hall a ha
      · rw [List.countP_append]
        have h0 : jobs.countP (fun j => decide (fireKey j = fireKey job)) = 0 := by
          rw [List.countP_eq_zero]
          intro j hj
          simpa using hall j hj
        simpa using h0

theorem insert_publish_job_unique_witness :
    (insert_publish_job
      [{ id := 1, schedule_id := 7, planned_at := ⟨1000000, none⟩, status := "planned",
         created_at := ⟨0, none⟩, updated_at := ⟨0, none⟩ }]
      { id := 2, schedule_id := 7, planned_at := ⟨2000000, none⟩, status := "planned",
        created_at := ⟨0, none⟩, updated_at := ⟨0, none⟩ }).isOk = true := by
  exact (insert_publish_job_unique
      [{ id := 1, schedule_id := 7, planned_at := ⟨1000000, none⟩, status := "planned",
         created_at := ⟨0, none⟩, updated_at := ⟨0, none⟩ }]
      { id := 2, schedule_id := 7, planned_at := ⟨2000000, none⟩, status := "planned",
        created_at := ⟨0, none⟩, updated_at := ⟨0, none⟩ }
      (List.pairwise_singleton _ _)).1.mpr (by decide)

/-! ## Soft delete of a Post (`src/api/posts.py::delete_post`, lines 485-551) -/

/-- `src/models.py::Post` — the columns the delete path touches. -/
structure Post where
  id : Nat
  text : String
  media_refs : Option String := none
  deleted : Bool := false
  created_at : PyDateTime
  updated_at : PyDateTime
deriving DecidableEq, Repr

/-- `src/models.py::Schedule` — the columns used by the resolver, the tick and
the selectors. -/
structure Schedule where
  id : Nat
  post_id : Option Nat := none
  kind : String
  schedule_spec : String
  timezone : Option String := some "UTC"
  next_run_at : Option PyDateTime := none
  last_run_at : Option PyDateTime := none
  enabled : Bool := true
  created_at : PyDateTime
  updated_at : PyDateTime
  template_id : Option Nat := none
  selection_policy : String := "RANDOM_UNIFORM"
  no_repeat_window : Int := 0
  no_repeat_scope : String := "template"
  last_variant_pos : Option Int := none
deriving DecidableEq, Repr

/-- The tables `delete_post` reads and writes. -/
structure PostsDb where
  posts : List Post
  schedules : List Schedule
  jobs : List PublishJob
deriving DecidableEq, Repr

/-- The status set `delete_post` skips — its local
`terminal_states = {"succeeded", "failed", "cancelled", "dead_letter"}`
(posts.py line 517).  Note it contains `"failed"`, which
`PublishJobStateMachine.TERMINAL_STATES` does not. -/
def delete_post_terminal_states : List String :=
  ["succeeded", "failed", "cancelled", "dead_letter"]

/-- The per-row mutation of the cancellation sweep (posts.py lines 528-532). -/
def delete_post_job_update (schedIds : List Nat) (now : PyDateTime)
    (j : PublishJob) : PublishJob :=
  if j.schedule_id ∈ schedIds ∧ j.status ∉ delete_post_terminal_states then
    { j with status := "cancelled", updated_at := now, finished_at := some now }
  else
    j

/-- `delete_post`: look the post up (missing → 404, nothing changes), mark it
deleted, and for every schedule with `post_id == post_id` set every job whose
status is outside `delete_post_terminal_states` to `cancelled` with
`updated_at = finished_at = now`; commit. -/
def delete_post (db : PostsDb) (post_id : Nat) (now : PyDateTime) : PostsDb :=
  match db.posts.find? (fun p => p.id = post_id) with
  | none => db
  | some _ =>
    let posts2 := db.posts.map (fun p =>
      if p.id = post_id then { p with deleted := true, updated_at := now } else p)
    let schedIds := (db.schedules.filter (fun s => s.post_id = some post_id)).map Schedule.id
    let jobs2 := db.jobs.map (delete_post_job_update schedIds now)
    { posts := posts2, schedules := db.schedules, jobs := jobs2 }

/-- C4 as stated is false on the code: `delete_post` counts `"failed"` among
its terminal states and leaves a failed job untouched, although `"failed"` is
not in `PublishJobStateMachine.TERMINAL_STATES` (so the claim's "non-terminal,
which includes 'failed'" set demands it be cancelled).  Concrete input: post 1,
schedule 10 bound to it, job 5 with status `"failed"`. -/
theorem delete_post_failed_job_counterexample :
    (delete_post
      { posts := [{ id := 1, text := "hello", created_at := ⟨0, none⟩,
                    updated_at := ⟨0, none⟩ }],
        schedules := [{ id := 10, post_id := some 1, kind := "one_shot",
                        schedule_spec := "2030-01-01T00:00:00", created_at := ⟨0, none⟩,
                        updated_at := ⟨0, none⟩ }],
        jobs := [{ id := 5, schedule_id := 10, planned_at := ⟨0, none⟩,
                   status := "failed", created_at := ⟨0, none⟩,
                   updated_at := ⟨0, none⟩ }] }
      1 ⟨99, none⟩).jobs.map PublishJob.status = ["failed"]
    ∧ is_terminal_state "failed" = false := by decide

/-- C4 amended: after `delete_post` on an existing Post, every job of every
schedule bound to that Post whose status is outside
`{succeeded, failed, cancelled, dead_letter}` (i.e. `planned`, `enqueued` or
`running`) has status `cancelled` with `finished_at = now`; jobs in one of
those four statuses — including `failed`, which `delete_post` treats as
terminal even though the state machine does not — and jobs of unrelated
schedules are unchanged. -/
theorem delete_post_cancels_active_jobs (db : PostsDb) (post_id : Nat)
    (now : PyDateTime) (p : Post)
    (hp : db.posts.find? (fun q => q.id = post_id) = some p) :
    (delete_post db post_id now).jobs =
      db.jobs.map (delete_post_job_update
        ((db.schedules.filter (fun s => s.post_id = some post_id)).map Schedule.id) now)
    ∧ ∀ schedIds (j : PublishJob),
        (j.schedule_id ∈ schedIds → j.status ∉ delete_post_terminal_states →
          (delete_post_job_update schedIds now j).status = "cancelled"
          ∧ (delete_post_job_update schedIds now j).finished_at = some now)
        ∧ (j.status ∈ delete_post_terminal_states ∨ j.schedule_id ∉ schedIds →
          delete_post_job_update schedIds now j = j) := by
  constructor
  · unfold delete_post
    rw [hp]
  · intro schedIds j
    constructor
    · intro hin hnt
      unfold delete_post_job_update
      rw [if_pos ⟨hin, hnt⟩]
      exact ⟨rfl, rfl⟩
    · intro h
      unfold delete_post_job_update
      rw [if_neg]
      rintro ⟨hin, hnt⟩
      rcases h with h | h
      · exact hnt h
      · exact h hin

theorem delete_post_cancels_active_jobs_witness :
    (delete_post
      { posts := [{ id := 1, text := "hello", created_at := ⟨0, none⟩,
                    updated_at := ⟨0, none⟩ }],
        schedules := [{ id := 10, post_id := some 1, kind := "one_shot",
                        schedule_spec := "2030-01-01T00:00:00", created_at := ⟨0, none⟩,
                        updated_at := ⟨0, none⟩ }],
        jobs := [{ id := 5, schedule_id := 10, planned_at := ⟨0, none⟩,
                   status := "running", created_at := ⟨0, none⟩,
                   updated_at := ⟨0, none⟩ }] }
      1 ⟨99, none⟩).jobs =
      [{ id := 5, schedule_id := 10, planned_at := ⟨0, none⟩,
         status := "running", created_at := ⟨0, none⟩,
         updated_at := ⟨0, none⟩ }].map (delete_post_job_update [10] ⟨99, none⟩) := by
  exact (delete_post_cancels_active_jobs
      { posts := [{ id := 1, text := "hello", created_at := ⟨0, none⟩,
                    updated_at := ⟨0, none⟩ }],
        schedules := [{ id := 10, post_id := some 1, kind := "one_shot",
                        schedule_spec := "2030-01-01T00:00:00", created_at := ⟨0, none⟩,
                        updated_at := ⟨0, none⟩ }],
        jobs := [{ id := 5, schedule_id := 10, planned_at := ⟨0, none⟩,
                   status := "running", created_at := ⟨0, none⟩,
                   updated_at := ⟨0, none⟩ }] }
      1 ⟨99, none⟩
      { id := 1, text := "hello", created_at := ⟨0, none⟩, updated_at := ⟨0, none⟩ }
      (by decide)).1

/-! ## Worker success path (`src/tasks/publish.py`, lines 140-171) -/

/-- `src/models.py::PublishedPost` — `x_post_id` carries a UNIQUE column. -/
structure PublishedPost where
  id : Nat
  post_id : Option Nat := none
  x_post_id : String
  published_at : PyDateTime
  url : Option String := none
  variant_id : Option Nat := none
deriving DecidableEq, Repr

/-- The UNIQUE column invariant of `published_posts.x_post_id`. -/
def published_posts_unique (rows : List PublishedPost) : Prop :=
  rows.Pairwise (fun a b => a.x_post_id ≠ b.x_post_id)

/-- The worker's success path for recording the publish (publish.py lines
140-164): if a PublishedPost with the publisher-returned id already exists,
skip creation (idempotent across retries); otherwise add one row. -/
def record_published_post (rows : List PublishedPost) (new_id : Nat)
    (post_id variant_id : Option Nat) (x_post_id : String) (now : PyDateTime) :
    List PublishedPost :=
  match rows.find? (fun p => p.x_post_id = x_post_id) with
  | some _ => rows
  | none => rows ++
      [{ id := new_id, post_id := post_id, x_post_id := x_post_id,
         published_at := now,
         url := some ("https://x.com/i/web/status/" ++ x_post_id),
         variant_id := variant_id }]

theorem record_published_post_noop (rows : List PublishedPost) (new_id : Nat)
    (post_id variant_id : Option Nat) (x_post_id : String) (now : PyDateTime)
    (hex : ∃ p ∈ rows, p.x_post_id = x_post_id) :
    record_published_post rows new_id post_id variant_id x_post_id now = rows := by
  obtain ⟨p, hp, hx⟩ := hex
  rcases hfind : rows.find? (fun q => q.x_post_id = x_post_id) with _ | q
  · exfalso
    have := List.find?_eq_none.mp hfind p hp
    simp [hx] at this
  · unfold record_published_post
    rw [hfind]

theorem countP_le_one_of_unique (rows : List PublishedPost) (x : String)
    (hinv : published_posts_unique rows) :
    rows.countP (fun p => p.x_post_id = x) ≤ 1 := by
  induction rows with
  | nil => simp
  | cons a rest ih =>
    have hinv2 := (List.pairwise_cons.mp hinv)
    by_cases h : a.x_post_id = x
    · have h0 : rest.countP (fun p => decide (p.x_post_id = x)) = 0 := by
        rw [List.countP_eq_zero]
        intro p hp
        have hne := hinv2.1 p hp
        simp only [decide_eq_true_eq]
        intro hpx
        exact hne (by rw [h, hpx])
      simp [List.countP_cons, h, h0]
    · simpa [List.countP_cons, h] using ih hinv2.2

/-- C6: the success path keeps `x_post_id` unique and adds at most one
PublishedPost row per external id — an existing row for the returned id is
reused (the table is unchanged), at most one row carries the id afterwards,
and processing the same external id a second time (any retry) adds nothing. -/
theorem record_published_post_idempotent (rows : List PublishedPost)
    (new_id new_id2 : Nat) (post_id variant_id post_id2 variant_id2 : Option Nat)
    (x_post_id : String) (now now2 : PyDateTime)
    (hinv : published_posts_unique rows) :
    published_posts_unique (record_published_post rows new_id post_id variant_id x_post_id now)
    ∧ (record_published_post rows new_id post_id variant_id x_post_id now).countP
        (fun p => p.x_post_id = x_post_id) ≤ 1
    ∧ ((∃ p ∈ rows, p.x_post_id = x_post_id) →
        record_published_post rows new_id post_id variant_id x_post_id now = rows)
    ∧ record_published_post
        (record_published_post rows new_id post_id variant_id x_post_id now)
        new_id2 post_id2 variant_id2 x_post_id now2
      = record_published_post rows new_id post_id variant_id x_post_id now := by
  rcases hfind : rows.find? (fun p => p.x_post_id = x_post_id) with _ | p0
  · have hall : ∀ p ∈ rows, p.x_post_id ≠ x_post_id := by
      intro p hp heq
      have := List.find?_eq_none.mp hfind p hp
      simp [heq] at this
    refine ⟨?_, ?_, ?_, ?_⟩
    · unfold record_published_post
      rw [hfind]
      unfold published_posts_unique at hinv ⊢
      rw [List.pairwise_append]
      refine ⟨hinv, List.pairwise_singleton _ _, ?_⟩
      intro a ha b hb
      simp only [List.mem_singleton] at hb
      subst hb
      simpa using hall a ha
    · unfold record_published_post
      rw [hfind, List.countP_append]
      have h0 : rows.countP (fun p => decide (p.x_post_id = x_post_id)) = 0 := by
        rw [List.countP_eq_zero]
        intro p hp
        simpa using hall p hp
      simp [h0, List.countP_cons]
    · rintro ⟨p, hp, hx⟩
      exact absurd hx (hall p hp)
    · have h1 : record_published_post rows new_id post_id variant_id x_post_id now =
          rows ++ [{ id := new_id, post_id := post_id, x_post_id := x_post_id,
                     published_at := now,
                     url := some ("https://x.com/i/web/status/" ++ x_post_id),
                     variant_id := variant_id }] := by
        unfold record_published_post
        rw [hfind]
      rw [h1]
      apply record_published_post_noop
      refine ⟨{ id := new_id, post_id := post_id, x_post_id := x_post_id,
                published_at := now,
                url := some ("https://x.com/i/web/status/" ++ x_post_id),
                variant_id := variant_id }, ?_, rfl⟩
      simp
  · have hp0 : p0 ∈ rows ∧ p0.x_post_id = x_post_id := by
      have h1 := List.find?_some hfind
      have h2 := List.mem_of_find?_eq_some hfind
      exact ⟨h2, by simpa using h1⟩
    have hsame : record_published_post rows new_id post_id variant_id x_post_id now = rows := by
      unfold record_published_post
      rw [hfind]
    refine ⟨?_, ?_, ?_, ?_⟩
    · rw [hsame]; exact hinv
    · rw [hsame]
      exact countP_le_one_of_unique rows x_post_id hinv
    · intro _; exact hsame
    · rw [hsame]
      unfold record_published_post
      rw [hfind]

theorem record_published_post_idempotent_witness :
    record_published_post
        (record_published_post [] 1 (some 3) none "X1" ⟨0, none⟩)
        2 (some 3) none "X1" ⟨5, none⟩
      = record_published_post [] 1 (some 3) none "X1" ⟨0, none⟩ :=
  (record_published_post_idempotent [] 1 2 (some 3) none (some 3) none "X1"
    ⟨0, none⟩ ⟨5, none⟩ List.Pairwise.nil).2.2.2

/-! ## Calendar and ISO-8601 plumbing for `datetime.isoformat` /
`dateutil.parser.parse` on ISO instants. -/

namespace PyDateTime

/-- Days since 1970-01-01 of a proleptic-Gregorian civil date
(Howard Hinnant's `days_from_civil`). -/
def days_from_civil (y m d : Int) : Int :=
  let y2 := if m ≤ 2 then y - 1 else y
  let era := Int.fdiv y2 400
  let yoe := y2 - era * 400
  let mp := if m ≤ 2 then m + 9 else m - 3
  let doy := Int.fdiv (153 * mp + 2) 5 + d - 1
  let doe := yoe * 365 + Int.fdiv yoe 4 - Int.fdiv yoe 100 + doy
  era * 146097 + doe - 719468

/-- Civil date from days since the epoch (Hinnant's `civil_from_days`). -/
def civil_from_days (z0 : Int) : Int × Int × Int :=
  let z := z0 + 719468
  let era := Int.fdiv z 146097
  let doe := z - era * 146097
  let yoe := Int.fdiv (doe - Int.fdiv doe 1460 + Int.fdiv doe 36524 - Int.fdiv doe 146096) 365
  let y := yoe + era * 400
  let doy := doe - (365 * yoe + Int.fdiv yoe 4 - Int.fdiv yoe 100)
  let mp := Int.fdiv (5 * doy + 2) 153
  let d := doy - Int.fdiv (153 * mp + 2) 5 + 1
  let m := if mp < 10 then mp + 3 else mp - 9
  (if m ≤ 2 then y + 1 else y, m, d)

def pad2 (n : Nat) : String := if n < 10 then "0" ++ toString n else toString n

def pad4 (n : Nat) : String :=
  if n < 10 then "000" ++ toString n
  else if n < 100 then "00" ++ toString n
  else if n < 1000 then "0" ++ toString n
  else toString n

def pad6 (n : Nat) : String :=
  let s := toString n
  let k := s.length
  if k < 6 then String.join (List.replicate (6 - k) "0") ++ s else s

/-- `datetime.isoformat()`: print the wall clock the value carries (for an
aware value that is the instant shifted by its offset) with `.ffffff` only
when the microsecond field is non-zero and `±HH:MM` only when aware. -/
def isoformat (dt : PyDateTime) : String :=
  let wall : Int :=
    match dt.tz with
    | none => dt.usec
    | some off => dt.usec + off * 60 * 1000000
  let totalSec := Int.fdiv wall 1000000
  let frac := (wall - totalSec * 1000000).toNat
  let days := Int.fdiv totalSec 86400
  let sod := (totalSec - days * 86400).toNat
  let ymd := civil_from_days days
  let base := pad4 ymd.1.toNat ++ "-" ++ pad2 ymd.2.1.toNat ++ "-" ++ pad2 ymd.2.2.toNat
    ++ "T" ++ pad2 (sod / 3600) ++ ":" ++ pad2 ((sod / 60) % 60) ++ ":" ++ pad2 (sod % 60)
  let base := if frac = 0 then base else base ++ "." ++ pad6 frac
  match dt.tz with
  | none => base
  | some off =>
    if 0 ≤ off then
      base ++ "+" ++ pad2 (Int.fdiv off 60).toNat ++ ":" ++ pad2 (Int.emod off 60).toNat
    else
      base ++ "-" ++ pad2 (Int.fdiv (-off) 60).toNat ++ ":" ++ pad2 (Int.emod (-off) 60).toNat

end PyDateTime

/-- Read exactly `n` decimal digits off the front of a character list. -/
def readDigits : Nat → List Char → Option (Nat × List Char)
  | 0, cs => some (0, cs)
  | _ + 1, [] => none
  | n + 1, c :: cs =>
    if c.isDigit then
      match readDigits n cs with
      | none => none
      | some (v, rest) => some ((c.toNat - 48) * 10 ^ n + v, rest)
    else none

/-- Read 1 to 6 fractional-second digits, scaled to microseconds. -/
def readFrac : List Char → Nat → Nat → Option (Nat × List Char)
  | [], acc, k => if k = 0 then none else some (acc * 10 ^ (6 - k), [])
  | c :: cs, acc, k =>
    if c.isDigit ∧ k < 6 then readFrac cs (acc * 10 + (c.toNat - 48)) (k + 1)
    else if k = 0 then none
    else some (acc * 10 ^ (6 - k), c :: cs)

/-- The time-zone suffix: nothing, `Z`, or `±HH:MM` (minutes offset). -/
def readTzSuffix : List Char → Option (Option Int)
  | [] => some none
  | ['Z'] => some (some 0)
  | c :: cs =>
    if c = '+' ∨ c = '-' then
      match readDigits 2 cs with
      | none => none
      | some (oh, rest) =>
        match rest with
        | ':' :: rest2 =>
          match readDigits 2 rest2 with
          | some (om, []) =>
            if oh < 24 ∧ om < 60 then
              some (some (if c = '+' then (oh * 60 + om : Int) else -(oh * 60 + om : Int)))
            else none
          | _ => none
        | _ => none
    else none

/-- The time-of-day part `HH:MM[:SS[.ffffff]]` plus the zone suffix; returns
(microseconds into the day, offset). -/
def readTimePart (cs : List Char) : Option (Nat × Option Int) :=
  match readDigits 2 cs with
  | none => none
  | some (hh, rest) =>
    match rest with
    | ':' :: rest2 =>
      match readDigits 2 rest2 with
      | none => none
      | some (mi, rest3) =>
        if hh < 24 ∧ mi < 60 then
          match rest3 with
          | ':' :: rest4 =>
            match readDigits 2 rest4 with
            | none => none
            | some (ss, rest5) =>
              if ss < 60 then
                match rest5 with
                | '.' :: rest6 =>
                  match readFrac rest6 0 0 with
                  | none => none
                  | some (frac, rest7) =>
                    match readTzSuffix rest7 with
                    | none => none
                    | some tz =>
                      some ((hh * 3600 + mi * 60 + ss) * 1000000 + frac, tz)
                | _ =>
                  match readTzSuffix rest5 with
                  | none => none
                  | some tz => some ((hh * 3600 + mi * 60 + ss) * 1000000, tz)
              else none
          | _ =>
            match readTzSuffix rest3 with
            | none => none
            | some tz => some ((hh * 3600 + mi * 60) * 1000000, tz)
        else none
    | _ => none

/-- Model of `dateutil.parser.parse` restricted to ISO-8601 instants
`YYYY-MM-DD[{T or space}HH:MM[:SS[.ffffff]]][Z or ±HH:MM]` (the only format
this codebase feeds it; anything else is a parse failure).  A trailing zone
designator yields an *aware* value, its absence a naive one — exactly
dateutil's behaviour. -/
def parse_iso_datetime (s : String) : Option PyDateTime :=
  match readDigits 4 s.data with
  | none => none
  | some (y, r1) =>
    match r1 with
    | '-' :: r2 =>
      match readDigits 2 r2 with
      | none => none
      | some (mo, r3) =>
        match r3 with
        | '-' :: r4 =>
          match readDigits 2 r4 with
          | none => none
          | some (dy, r5) =>
            if 1 ≤ mo ∧ mo ≤ 12 ∧ 1 ≤ dy ∧ dy ≤ 31 then
              let days := PyDateTime.days_from_civil (y : Int) (mo : Int) (dy : Int)
              match r5 with
              | [] => some { usec := days * 86400 * 1000000, tz := none }
              | sep :: r6 =>
                if sep = 'T' ∨ sep = ' ' then
                  match readTimePart r6 with
                  | none => none
                  | some (usecOfDay, tz) =>
                    let wall := days * 86400 * 1000000 + (usecOfDay : Int)
                    match tz with
                    | none => some { usec := wall, tz := none }
                    | some off => some { usec := wall - off * 60 * 1000000, tz := some off }
                else if sep = 'Z' ∧ r6 = [] then
                  some { usec := days * 86400 * 1000000, tz := some 0 }
                else none
            else none
        | _ => none
    | _ => none

/-! ## Schedule resolution (`src/services/scheduler_service.py`) -/

/-- `ScheduleResolver._resolve_one_shot` (lines 175-189): parse the ISO
string, then `if planned_time <= datetime.utcnow(): return None` else return
it.  `datetime.utcnow()` is naive; when the spec carries a zone designator the
parsed value is aware and the comparison raises `TypeError`, which the
enclosing `except` swallows into `None`.  `now_usec` is the instant of
`datetime.utcnow()`. -/
def resolve_one_shot (spec : String) (now_usec : Int) : Option PyDateTime :=
  match parse_iso_datetime spec with
  | none => none
  | some planned =>
    match PyDateTime.pyLe planned { usec := now_usec, tz := none } with
    | none => none
    | some true => none
    | some false => some planned

/-- `ScheduleResolver._validate_rrule`'s whitelist (lines 245-249). -/
def ALLOWED_COMPONENTS : List String :=
  ["FREQ", "INTERVAL", "COUNT", "UNTIL", "BYDAY", "BYMONTHDAY",
   "BYMONTH", "BYYEARDAY", "BYWEEKNO", "BYSETPOS", "BYHOUR",
   "BYMINUTE", "BYSECOND", "DTSTART", "RRULE"]

def asciiUpperChar (c : Char) : Char :=
  if 'a' ≤ c ∧ c ≤ 'z' then Char.ofNat (c.toNat - 32) else c

def strUpper (s : String) : String := String.mk (s.data.map asciiUpperChar)

/-- `re.findall(r'([A-Z]+)=', spec.upper())`: every maximal run of capital
letters immediately followed by `=`, scanning left to right.  `cur` is the
run read so far (in reverse). -/
def extract_components (cs : List Char) (cur : List Char) : List String :=
  match cs with
  | [] => []
  | c :: rest =>
    if 'A' ≤ c ∧ c ≤ 'Z' then extract_components rest (c :: cur)
    else if c = '=' ∧ cur ≠ [] then String.mk cur.reverse :: extract_components rest []
    else extract_components rest []

/-- `ScheduleResolver._validate_rrule` (lines 242-267): size limit 4000
characters and component whitelist. -/
def validate_rrule (spec : String) : Bool :=
  if spec.length > 4000 then false
  else (extract_components (strUpper spec).data []).all (fun c => c ∈ ALLOWED_COMPONENTS)

/-- The reference instant both recurring resolvers use (scheduler_service.py
lines 200-203 and 421-424): `last_run_at` — stored naive UTC, localized and
converted to the schedule zone, an instant-preserving step — when set,
otherwise `datetime.now(tz)` run through
`_adjust_reference_for_dst_transition` (modelled by `adjust_reference`). -/
def last_run_reference (last_run_at : Option PyDateTime) (tzOff : Int)
    (now_tz : PyDateTime) (adjust_reference : PyDateTime → PyDateTime) : PyDateTime :=
  match last_run_at with
  | some lr => (if lr.tz = none then lr.toUTC else lr).astimezoneOffset tzOff
  | none => adjust_reference now_tz

/-- `ScheduleResolver._resolve_cron` (lines 191-240).  The croniter library
is a parameter: `get_next ref` models `croniter(spec, ref).get_next(datetime)`
(its contract — the next occurrence is strictly after `ref` — enters the
theorems as a hypothesis).  `tzOff` is the schedule zone's UTC offset at the
reference instant.  The result is converted back with
`.astimezone(pytz.UTC).replace(tzinfo=None)`. -/
def resolve_cron (schedule : Schedule) (tzOff : Int) (now_tz : PyDateTime)
    (get_next : PyDateTime → PyDateTime)
    (adjust_reference : PyDateTime → PyDateTime) : Option PyDateTime :=
  some ((get_next
    (last_run_reference schedule.last_run_at tzOff now_tz adjust_reference)).toUTC.toNaiveUTC)

/-- `ScheduleResolver._resolve_rrule` (lines 367-468): validate, pick the
reference, and take `rule.after(after_time, inc=False)` — modelled by the
parameter `rule_after`, whose strictly-after contract enters the theorems as
a hypothesis; `none` (rule exhausted: COUNT/UNTIL) propagates.  The
compiled-rule LRU cache only memoizes the rule object and is dropped here. -/
def resolve_rrule (schedule : Schedule) (tzOff : Int) (now_tz : PyDateTime)
    (rule_after : PyDateTime → Option PyDateTime)
    (adjust_reference : PyDateTime → PyDateTime) : Option PyDateTime :=
  if validate_rrule schedule.schedule_spec then
    match rule_after
        (last_run_reference schedule.last_run_at tzOff now_tz adjust_reference) with
    | none => none
    | some next => some next.toUTC.toNaiveUTC
  else none

/-- `ScheduleResolver.resolve_schedule` (lines 159-173): dispatch on
`schedule.kind`; unknown kinds resolve to `None`. -/
def resolve_schedule (schedule : Schedule) (now_usec : Int) (tzOff : Int)
    (now_tz : PyDateTime) (get_next : PyDateTime → PyDateTime)
    (rule_after : PyDateTime → Option PyDateTime)
    (adjust_reference : PyDateTime → PyDateTime) : Option PyDateTime :=
  if schedule.kind = "one_shot" then resolve_one_shot schedule.schedule_spec now_usec
  else if schedule.kind = "cron" then
    resolve_cron schedule tzOff now_tz get_next adjust_reference
  else if schedule.kind = "rrule" then
    resolve_rrule schedule tzOff now_tz rule_after adjust_reference
  else none

theorem last_run_reference_usec (lr : PyDateTime) (tzOff : Int)
    (now_tz : PyDateTime) (adjust_reference : PyDateTime → PyDateTime) :
    (last_run_reference (some lr) tzOff now_tz adjust_reference).usec = lr.usec := by
  rcases htz : lr.tz with _ | off <;>
    simp [last_run_reference, PyDateTime.toUTC, PyDateTime.astimezoneOffset, htz]

/-- C7: for a `cron` or `rrule` schedule with `last_run_at` set, a returned
next fire is strictly after `last_run_at` — the resolver takes the reference
instant from `last_run_at` through instant-preserving zone conversions, and
the libraries' `get_next` / `after(·, inc=False)` return a strictly later
occurrence (their contract, a hypothesis here). -/
theorem resolver_next_fire_after_last_run (schedule : Schedule) (now_usec : Int)
    (tzOff : Int) (now_tz : PyDateTime) (get_next : PyDateTime → PyDateTime)
    (rule_after : PyDateTime → Option PyDateTime)
    (adjust_reference : PyDateTime → PyDateTime) (lr r : PyDateTime)
    (hkind : schedule.kind = "cron" ∨ schedule.kind = "rrule")
    (hlr : schedule.last_run_at = some lr)
    (hget : ∀ d, d.usec < (get_next d).usec)
    (hafter : ∀ d o, rule_after d = some o → d.usec < o.usec)
    (hres : resolve_schedule schedule now_usec tzOff now_tz get_next rule_after
      adjust_reference = some r) :
    lr.usec < r.usec := by
  rcases hkind with hk | hk
  · rw [resolve_schedule, hk] at hres
    rw [if_neg (by decide), if_pos rfl, resolve_cron] at hres
    injection hres with h2
    subst h2
    rw [hlr]
    have h := hget (last_run_reference (some lr) tzOff now_tz adjust_reference)
    rw [last_run_reference_usec] at h
    simpa [PyDateTime.toUTC, PyDateTime.toNaiveUTC] using h
  · rw [resolve_schedule, hk] at hres
    rw [if_neg (by decide), if_neg (by decide), if_pos rfl, resolve_rrule] at hres
    by_cases hv : validate_rrule schedule.schedule_spec
    · rw [if_pos hv] at hres
      rcases hra : rule_after
          (last_run_reference schedule.last_run_at tzOff now_tz adjust_reference)
        with _ | next
      · rw [hra] at hres; cases hres
      · rw [hra] at hres
        injection hres with h2
        subst h2
        have h := hafter _ _ hra
        rw [hlr, last_run_reference_usec] at h
        simpa [PyDateTime.toUTC, PyDateTime.toNaiveUTC] using h
    · rw [if_neg hv] at hres; cases hres

theorem resolver_next_fire_after_last_run_witness :
    (1000000000000000 : Int) < (1000000060000000 : Int) ∧
    resolve_schedule
      { id := 3, kind := "cron", schedule_spec := "0 * * * *",
        timezone := some "UTC", last_run_at := some ⟨1000000000000000, none⟩,
        created_at := ⟨0, none⟩, updated_at := ⟨0, none⟩ }
      1000000030000000 0 ⟨1000000030000000, some 0⟩
      (fun d => ⟨d.usec + 60000000, d.tz⟩) (fun d => some ⟨d.usec + 60000000, d.tz⟩)
      id = some ⟨1000000060000000, none⟩ := by
  refine ⟨?_, rfl⟩
  exact resolver_next_fire_after_last_run
    { id := 3, kind := "cron", schedule_spec := "0 * * * *",
      timezone := some "UTC", last_run_at := some ⟨1000000000000000, none⟩,
      created_at := ⟨0, none⟩, updated_at := ⟨0, none⟩ }
    1000000030000000 0 ⟨1000000030000000, some 0⟩
    (fun d => ⟨d.usec + 60000000, d.tz⟩) (fun d => some ⟨d.usec + 60000000, d.tz⟩)
    id ⟨1000000000000000, none⟩ ⟨1000000060000000, none⟩
    (Or.inl rfl) rfl (fun d => by simp)
    (fun d o ho => by
      injection ho with h2
      subst h2
      simp) rfl

/-- C8 as stated is false on the code: a one-shot spec with a trailing `Z`
parses to an *aware* datetime, `planned_time <= datetime.utcnow()` then
raises `TypeError` (aware vs naive), the `except` swallows it, and the
resolver returns `None` — even though the instant (2030-01-01T12:00:00Z,
1893499200000000 µs) is strictly in the future of now (1700000000000000 µs).
The claim demands `some` here. -/
theorem resolve_one_shot_z_counterexample :
    parse_iso_datetime "2030-01-01T12:00:00Z" = some ⟨1893499200000000, some 0⟩
    ∧ (1700000000000000 : Int) < 1893499200000000
    ∧ resolve_one_shot "2030-01-01T12:00:00Z" 1700000000000000 = none := by
  refine ⟨by decide, by decide, by decide⟩

/-- C8 amended: resolving a one-shot schedule parses `schedule_spec` as an
ISO instant and returns it exactly when the parse succeeds, the parsed value
is *naive* (no zone designator) and it is strictly later than
`datetime.utcnow()`; a naive instant at or before now, a spec that fails to
parse, and — unlike the claim — a spec carrying a zone designator such as a
trailing `Z` (whose aware-vs-naive comparison raises and is swallowed) all
resolve to `none`. -/
theorem resolve_one_shot_cases (spec : String) (now_usec : Int) :
    (parse_iso_datetime spec = none → resolve_one_shot spec now_usec = none)
    ∧ ∀ p, parse_iso_datetime spec = some p →
        ((p.tz = none ∧ now_usec < p.usec) → resolve_one_shot spec now_usec = some p)
        ∧ ((p.tz = none ∧ p.usec ≤ now_usec) → resolve_one_shot spec now_usec = none)
        ∧ (p.tz ≠ none → resolve_one_shot spec now_usec = none) := by
  constructor
  · intro h
    rw [resolve_one_shot, h]
  · intro p hp
    refine ⟨?_, ?_, ?_⟩
    · rintro ⟨htz, hlt⟩
      rw [resolve_one_shot, hp]
      simp [PyDateTime.pyLe, htz, not_le.mpr hlt]
    · rintro ⟨htz, hle⟩
      rw [resolve_one_shot, hp]
      simp [PyDateTime.pyLe, htz, hle]
    · intro htz
      rw [resolve_one_shot, hp]
      rcases h2 : p.tz with _ | off
      · exact absurd h2 htz
      · simp [PyDateTime.pyLe, h2]

theorem resolve_one_shot_cases_witness :
    resolve_one_shot "2030-01-01T12:00:00" 1700000000000000
      = some ⟨1893499200000000, none⟩ :=
  ((resolve_one_shot_cases "2030-01-01T12:00:00" 1700000000000000).2
    ⟨1893499200000000, none⟩ (by decide)).1 ⟨rfl, by decide⟩

/-! ## SHA-256 (`hashlib.sha256`), executable over byte lists -/

/-- Truncate to a 32-bit word. -/
def w32 (n : Nat) : Nat := n % 4294967296

/-- Rotate a 32-bit word right by `n` bits. -/
def rotr32 (x n : Nat) : Nat := w32 ((x >>> n) + (x <<< (32 - n)))

def smallSigma0 (x : Nat) : Nat := rotr32 x 7 ^^^ rotr32 x 18 ^^^ (x >>> 3)

def smallSigma1 (x : Nat) : Nat := rotr32 x 17 ^^^ rotr32 x 19 ^^^ (x >>> 10)

def bigSigma0 (x : Nat) : Nat := rotr32 x 2 ^^^ rotr32 x 13 ^^^ rotr32 x 22

def bigSigma1 (x : Nat) : Nat := rotr32 x 6 ^^^ rotr32 x 11 ^^^ rotr32 x 25

def chF (x y z : Nat) : Nat := (x &&& y) ^^^ ((x ^^^ 4294967295) &&& z)

def majF (x y z : Nat) : Nat := (x &&& y) ^^^ (x &&& z) ^^^ (y &&& z)

def sha256K : List Nat :=
  [1116352408, 1899447441, 3049323471, 3921009573, 961987163, 1508970993,
   2453635748, 2870763221, 3624381080, 310598401, 607225278, 1426881987,
   1925078388, 2162078206, 2614888103, 3248222580, 3835390401, 4022224774,
   264347078, 604807628, 770255983, 1249150122, 1555081692, 1996064986,
   2554220882, 2821834349, 2952996808, 3210313671, 3336571891, 3584528711,
   113926993, 338241895, 666307205, 773529912, 1294757372, 1396182291,
   1695183700, 1986661051, 2177026350, 2456956037, 2730485921, 2820302411,
   3259730800, 3345764771, 3516065817, 3600352804, 4094571909, 275423344,
   430227734, 506948616, 659060556, 883997877, 958139571, 1322822218,
   1537002063, 1747873779, 1955562222, 2024104815, 2227730452, 2361852424,
   2428436474, 2756734187, 3204031479, 3329325298]

structure Sha256State where
  a : Nat
  b : Nat
  c : Nat
  d : Nat
  e : Nat
  f : Nat
  g : Nat
  h : Nat
deriving DecidableEq, Repr

def sha256Init : Sha256State :=
  { a := 1779033703, b := 3144134277, c := 1013904242, d := 2773480762,
    e := 1359893119, f := 2600822924, g := 528734635, h := 1541459225 }

/-- Big-endian 32-bit words from bytes. -/
def bytesToWordsBE : List Nat → List Nat
  | b0 :: b1 :: b2 :: b3 :: rest =>
    (((b0 * 256 + b1) * 256 + b2) * 256 + b3) :: bytesToWordsBE rest
  | _ => []

def wordToBytesBE (x : Nat) : List Nat :=
  [(x >>> 24) % 256, (x >>> 16) % 256, (x >>> 8) % 256, x % 256]

/-- Merkle–Damgård padding: `0x80`, zeros to 56 mod 64, 8-byte big-endian bit
length. -/
def sha256pad (msg : List Nat) : List Nat :=
  let L := msg.length
  let padZeros := (119 - L % 64) % 64
  msg ++ [128] ++ List.replicate padZeros 0
    ++ (List.range 8).map (fun i => ((8 * L) >>> (8 * (7 - i))) % 256)

/-- Expand the 16 block words to the 64-entry message schedule. -/
def msgSchedule (w16 : List Nat) : Array Nat :=
  (List.range 48).foldl
    (fun w i =>
      w.push (w32 (smallSigma1 (w.getD (i + 14) 0) + w.getD (i + 9) 0
        + smallSigma0 (w.getD (i + 1) 0) + w.getD i 0)))
    w16.toArray

def sha256Compress (st : Sha256State) (k w : Nat) : Sha256State :=
  let t1 := w32 (st.h + bigSigma1 st.e + chF st.e st.f st.g + k + w)
  let t2 := w32 (bigSigma0 st.a + majF st.a st.b st.c)
  { a := w32 (t1 + t2), b := st.a, c := st.b, d := st.c,
    e := w32 (st.d + t1), f := st.e, g := st.f, h := st.g }

def sha256Block (st0 : Sha256State) (block : List Nat) : Sha256State :=
  let w := msgSchedule (bytesToWordsBE block)
  let st := (sha256K.zip w.toList).foldl
    (fun s kw => sha256Compress s kw.1 kw.2) st0
  { a := w32 (st0.a + st.a), b := w32 (st0.b + st.b), c := w32 (st0.c + st.c),
    d := w32 (st0.d + st.d), e := w32 (st0.e + st.e), f := w32 (st0.f + st.f),
    g := w32 (st0.g + st.g), h := w32 (st0.h + st.h) }

def chunks64 (l : List Nat) : List (List Nat) :=
  if _hl : l = [] then []
  else (l.take 64) :: chunks64 (l.drop 64)
termination_by l.length
decreasing_by
  have hpos : 0 < l.length := List.length_pos.mpr _hl
  simp [List.length_drop]
  omega

/-- `hashlib.sha256(msg).digest()` as a 32-byte list. -/
def sha256Bytes (msg : List Nat) : List Nat :=
  let st := (chunks64 (sha256pad msg)).foldl sha256Block sha256Init
  wordToBytesBE st.a ++ wordToBytesBE st.b ++ wordToBytesBE st.c ++ wordToBytesBE st.d
    ++ wordToBytesBE st.e ++ wordToBytesBE st.f ++ wordToBytesBE st.g ++ wordToBytesBE st.h

/-- `str.encode()` for the ASCII strings this codebase hashes. -/
def str_encode (s : String) : List Nat := s.data.map Char.toNat

/-- `int.from_bytes(bs, "big")`. -/
def int_from_bytes_be (bs : List Nat) : Nat := bs.foldl (fun acc b => acc * 256 + b) 0

/-! ## Variant selection (`src/services/variant_service.py`) -/

/-- `src/models.py::PostVariant`. -/
structure PostVariant where
  id : Nat
  template_id : Nat
  text : String
  weight : Int := 1
  active : Bool := true
  media_refs : Option String := none
deriving DecidableEq, Repr

/-- `src/models.py::VariantSelectionHistory`. -/
structure VariantSelectionHistory where
  id : Nat
  template_id : Nat
  variant_id : Nat
  planned_at : PyDateTime
  selected_at : PyDateTime
  schedule_id : Nat
  job_id : Nat
deriving DecidableEq, Repr

/-- The tables `VariantSelector` queries. -/
structure VariantDb where
  variants : List PostVariant
  history : List VariantSelectionHistory
deriving DecidableEq, Repr

/-- Model of a `random.Random(seed)` instance through the two draws the
selector makes.  The Mersenne Twister is a pure function of the seed, so an
instance is a pair of deterministic draw functions; `choice l = none` models
the `IndexError` on an empty sequence and a `none` from `choices_weighted`
the `ValueError` on a non-positive weight total.  The library contracts enter
the theorems through `PyRandom.Sound`. -/
structure PyRandom where
  choice : List PostVariant → Option PostVariant
  choices_weighted : List PostVariant → List Int → Option PostVariant

/-- The contracts of `random.Random.choice` / `.choices(..., k=1)[0]`: a draw
from a non-empty pool succeeds and lands in the pool (for the weighted draw,
when the weight total is positive). -/
def PyRandom.Sound (rng : PyRandom) : Prop :=
  (∀ l, l ≠ [] → ∃ v, rng.choice l = some v ∧ v ∈ l)
  ∧ (∀ l ws, l ≠ [] → (0 : Int) < ws.sum →
      ∃ v, rng.choices_weighted l ws = some v ∧ v ∈ l)

/-- `VariantSelector._generate_seed` (variant_service.py lines 89-105):
normalize to UTC (naive read as UTC), drop microseconds, hash
`"{schedule_id}:{planned_at.isoformat()}"` with SHA-256 and read the first 8
bytes big-endian. -/
def generate_seed (schedule_id : Nat) (planned_at : PyDateTime) : Nat :=
  let planned_at_utc :=
    if planned_at.tz = none then planned_at.toUTC else planned_at.astimezoneOffset 0
  let planned_at_normalized := planned_at_utc.replaceMicrosecond0
  let seed_str := toString schedule_id ++ ":" ++ planned_at_normalized.isoformat
  int_from_bytes_be ((sha256Bytes (str_encode seed_str)).take 8)

/-- Insert into a list kept descending by `selected_at` (stable on ties) —
the `ORDER BY selected_at DESC` of the history query; SQL leaves tie order
unspecified, this model keeps table order. -/
def insertDescBySelectedAt (x : VariantSelectionHistory) :
    List VariantSelectionHistory → List VariantSelectionHistory
  | [] => [x]
  | y :: ys =>
    if y.selected_at.usec < x.selected_at.usec then x :: y :: ys
    else y :: insertDescBySelectedAt x ys

def sortDescBySelectedAt (l : List VariantSelectionHistory) :
    List VariantSelectionHistory :=
  l.foldr insertDescBySelectedAt []

/-- The `excluded_variant_ids` of `_apply_no_repeat_window` (lines 123-147):
variant ids of the most recent `no_repeat_window` history rows with
`selected_at <= planned_at` — note the *raw* `planned_at` argument, not the
normalized one — scoped to the schedule or (default) the template. -/
def recent_window_ids (db : VariantDb) (schedule : Schedule)
    (planned_at : PyDateTime) : List Nat :=
  let base :=
    if schedule.no_repeat_scope = "schedule" then
      db.history.filter (fun h =>
        h.schedule_id = schedule.id ∧ h.selected_at.usec ≤ planned_at.usec)
    else
      db.history.filter (fun h =>
        some h.template_id = schedule.template_id ∧ h.selected_at.usec ≤ planned_at.usec)
  ((sortDescBySelectedAt base).take schedule.no_repeat_window.toNat).map
    (fun h => h.variant_id)

/-- `VariantSelector._apply_no_repeat_window` (lines 107-150). -/
def apply_no_repeat_window (db : VariantDb) (schedule : Schedule)
    (planned_at : PyDateTime) (variants : List PostVariant) : List PostVariant :=
  if schedule.no_repeat_window ≤ 0 then variants
  else variants.filter (fun v => v.id ∉ recent_window_ids db schedule planned_at)

/-- Python `%` (used for the round-robin cursor): for the positive modulus
that occurs here it coincides with Lean's `Int.emod`. -/
def pymod (a n : Int) : Int := a % n

/-- Insert into a list kept ascending by `id` — `sorted(pool, key=lambda v: v.id)`. -/
def insertByIdAsc (x : PostVariant) : List PostVariant → List PostVariant
  | [] => [x]
  | y :: ys => if x.id ≤ y.id then x :: y :: ys else y :: insertByIdAsc x ys

def sortByIdAsc (l : List PostVariant) : List PostVariant :=
  l.foldr insertByIdAsc []

/-- `VariantSelector._select_by_policy` (lines 152-191).  Returns the choice
and the (possibly mutated) schedule: only `ROUND_ROBIN` writes
`last_variant_pos`.  Any policy other than the three named ones falls into
the final `else` — `RANDOM_UNIFORM` or anything else is `rng.choice(pool)`. -/
def select_by_policy (pool : List PostVariant) (schedule : Schedule)
    (rng : PyRandom) : Option PostVariant × Schedule :=
  if pool = [] then (none, schedule)
  else if schedule.selection_policy = "RANDOM_WEIGHTED" then
    (rng.choices_weighted pool (pool.map (fun v => v.weight)), schedule)
  else if schedule.selection_policy = "ROUND_ROBIN" then
    let sorted_pool := sortByIdAsc pool
    let n : Int := sorted_pool.length
    let last_pos := match schedule.last_variant_pos with
      | some p => p
      | none => -1
    let next_pos := pymod (last_pos + 1) n
    (sorted_pool.get? next_pos.toNat,
      { schedule with last_variant_pos := some next_pos })
  else if schedule.selection_policy = "NO_REPEAT_WINDOW" then
    (rng.choice pool, schedule)
  else
    (rng.choice pool, schedule)

/-- `VariantSelector.select_variant` (lines 22-87).  `rng_of` models
`random.Random` (seed ↦ instance).  Returns ((variant, seed), schedule after
any round-robin cursor write).  Note the no-repeat filter receives the *raw*
`planned_at`; only the seed uses the normalized one. -/
def select_variant (rng_of : Nat → PyRandom) (db : VariantDb)
    (schedule : Schedule) (planned_at : PyDateTime) (seed_arg : Option Nat) :
    (Option PostVariant × Nat) × Schedule :=
  match schedule.template_id with
  | none => ((none, 0), schedule)
  | some tid =>
    let variants := db.variants.filter (fun v => v.template_id = tid ∧ v.active)
    if variants = [] then ((none, 0), schedule)
    else
      let seed :=
        match seed_arg with
        | some s => s
        | none =>
          let planned_at_normalized :=
            (if planned_at.tz = none then planned_at.toUTC
             else planned_at.astimezoneOffset 0).replaceMicrosecond0
          generate_seed schedule.id planned_at_normalized
      let rng := rng_of seed
      let pool := apply_no_repeat_window db schedule planned_at variants
      let pool2 := if pool = [] then variants else pool
      let res := select_by_policy pool2 schedule rng
      ((res.1, seed), res.2)

theorem mem_insertByIdAsc (x y : PostVariant) (l : List PostVariant) :
    y ∈ insertByIdAsc x l ↔ y = x ∨ y ∈ l := by
  induction l with
  | nil => simp [insertByIdAsc]
  | cons a as ih =>
    by_cases h : x.id ≤ a.id
    · simp [insertByIdAsc, h]
    · simp only [insertByIdAsc, if_neg h, List.mem_cons, ih]
      tauto

theorem mem_sortByIdAsc (l : List PostVariant) (y : PostVariant) :
    y ∈ sortByIdAsc l ↔ y ∈ l := by
  induction l with
  | nil => simp [sortByIdAsc]
  | cons a as ih =>
    have hstep : sortByIdAsc (a :: as) = insertByIdAsc a (sortByIdAsc as) := rfl
    rw [hstep, mem_insertByIdAsc, ih, List.mem_cons]

theorem length_insertByIdAsc (x : PostVariant) (l : List PostVariant) :
    (insertByIdAsc x l).length = l.length + 1 := by
  induction l with
  | nil => rfl
  | cons a as ih => by_cases h : x.id ≤ a.id <;> simp [insertByIdAsc, h, ih]

theorem length_sortByIdAsc (l : List PostVariant) :
    (sortByIdAsc l).length = l.length := by
  induction l with
  | nil => rfl
  | cons a as ih =>
    have hstep : sortByIdAsc (a :: as) = insertByIdAsc a (sortByIdAsc as) := rfl
    rw [hstep, length_insertByIdAsc, ih, List.length_cons]

theorem sum_pos_of_one_le (l : List Int) (hne : l ≠ []) (h1 : ∀ x ∈ l, 1 ≤ x) :
    0 < l.sum := by
  induction l with
  | nil => exact absurd rfl hne
  | cons a as ih =>
    have ha := h1 a (by simp)
    rcases as with _ | ⟨b, bs⟩
    · simpa using ha
    · have hpos := ih (by simp) (fun x hx => h1 x (List.mem_cons_of_mem a hx))
      rw [List.sum_cons]
      omega

/-- Whatever the policy string, `_select_by_policy` on a non-empty pool with
weights ≥ 1 returns an element of the pool (the library contracts are the
`PyRandom.Sound` hypothesis). -/
theorem select_by_policy_some (pool : List PostVariant) (schedule : Schedule)
    (rng : PyRandom) (hpool : pool ≠ []) (hrs : rng.Sound)
    (hws : ∀ v ∈ pool, 1 ≤ v.weight) :
    ∃ v, (select_by_policy pool schedule rng).1 = some v ∧ v ∈ pool := by
  by_cases h1 : schedule.selection_policy = "RANDOM_WEIGHTED"
  · obtain ⟨v, hv, hm⟩ := hrs.2 pool (pool.map (fun v => v.weight)) hpool
      (by
        apply sum_pos_of_one_le
        · simpa using hpool
        · intro x hx
          obtain ⟨w, hw, hwx⟩ := List.mem_map.mp hx
          exact hwx ▸ hws w hw)
    refine ⟨v, ?_, hm⟩
    rw [select_by_policy, if_neg hpool, if_pos h1]
    exact hv
  · by_cases h2 : schedule.selection_policy = "ROUND_ROBIN"
    · have hn : 0 < (sortByIdAsc pool).length := by
        rw [length_sortByIdAsc]
        exact List.length_pos.mpr hpool
      have hn0 : (0 : Int) < ((sortByIdAsc pool).length : Int) := by exact_mod_cast hn
      have hge : 0 ≤ pymod
          ((match schedule.last_variant_pos with | some p => p | none => -1) + 1)
          ((sortByIdAsc pool).length : Int) :=
        Int.emod_nonneg _ (ne_of_gt hn0)
      have hlt : pymod
          ((match schedule.last_variant_pos with | some p => p | none => -1) + 1)
          ((sortByIdAsc pool).length : Int) < ((sortByIdAsc pool).length : Int) :=
        Int.emod_lt_of_pos _ hn0
      have hidx : (pymod
          ((match schedule.last_variant_pos with | some p => p | none => -1) + 1)
          ((sortByIdAsc pool).length : Int)).toNat < (sortByIdAsc pool).length := by
        omega
      refine ⟨(sortByIdAsc pool).get ⟨_, hidx⟩, ?_, ?_⟩
      · rw [select_by_policy, if_neg hpool, if_neg h1, if_pos h2]
        exact List.get?_eq_get hidx
      · exact (mem_sortByIdAsc pool _).mp (List.get_mem _ _ _)
    · obtain ⟨v, hv, hm⟩ := hrs.1 pool hpool
      refine ⟨v, ?_, hm⟩
      by_cases h3 : schedule.selection_policy = "NO_REPEAT_WINDOW"
      · rw [select_by_policy, if_neg hpool, if_neg h1, if_neg h2, if_pos h3]
        exact hv
      · rw [select_by_policy, if_neg hpool, if_neg h1, if_neg h2, if_neg h3]
        exact hv

/-- C10: any selection policy string other than `RANDOM_WEIGHTED`,
`ROUND_ROBIN` and `NO_REPEAT_WINDOW` — `RANDOM_UNIFORM` included, and any
unrecognized value — falls into the final `else`: the result is exactly the
seeded PRNG's uniform `choice` over the pool (identical to what the literal
policy `RANDOM_UNIFORM` yields, with no schedule mutation), and on a
non-empty pool it is never `none`. -/
theorem select_by_policy_default_uniform (pool : List PostVariant)
    (schedule : Schedule) (rng : PyRandom)
    (hpol : schedule.selection_policy ∉
      ["RANDOM_WEIGHTED", "ROUND_ROBIN", "NO_REPEAT_WINDOW"])
    (hpool : pool ≠ [])
    (hchoice : ∀ l, l ≠ [] → ∃ v, rng.choice l = some v ∧ v ∈ l) :
    select_by_policy pool schedule rng = (rng.choice pool, schedule)
    ∧ (select_by_policy pool schedule rng).1
        = (select_by_policy pool { schedule with selection_policy := "RANDOM_UNIFORM" } rng).1
    ∧ ∃ v, (select_by_policy pool schedule rng).1 = some v ∧ v ∈ pool := by
  have h1 : ¬ schedule.selection_policy = "RANDOM_WEIGHTED" := fun h => hpol (by simp [h])
  have h2 : ¬ schedule.selection_policy = "ROUND_ROBIN" := fun h => hpol (by simp [h])
  have h3 : ¬ schedule.selection_policy = "NO_REPEAT_WINDOW" := fun h => hpol (by simp [h])
  have hmain : select_by_policy pool schedule rng = (rng.choice pool, schedule) := by
    rw [select_by_policy, if_neg hpool, if_neg h1, if_neg h2, if_neg h3]
  have huni : select_by_policy pool
      { schedule with selection_policy := "RANDOM_UNIFORM" } rng
      = (rng.choice pool, { schedule with selection_policy := "RANDOM_UNIFORM" }) := by
    rw [select_by_policy, if_neg hpool]
    simp only [if_neg (by decide : ¬ ("RANDOM_UNIFORM" = "RANDOM_WEIGHTED")),
      if_neg (by decide : ¬ ("RANDOM_UNIFORM" = "ROUND_ROBIN")),
      if_neg (by decide : ¬ ("RANDOM_UNIFORM" = "NO_REPEAT_WINDOW"))]
  refine ⟨hmain, ?_, ?_⟩
  · rw [hmain, huni]
  · obtain ⟨v, hv, hm⟩ := hchoice pool hpool
    exact ⟨v, by rw [hmain]; exact hv, hm⟩

/-- A concrete stand-in instance for witnesses: `choice` takes the head. -/
def head_rng : PyRandom :=
  { choice := fun l => l.head?, choices_weighted := fun l _ => l.head? }

theorem head_rng_sound : head_rng.Sound := by
  constructor
  · intro l hl
    rcases l with _ | ⟨a, as⟩
    · exact absurd rfl hl
    · exact ⟨a, rfl, by simp⟩
  · intro l ws hl _
    rcases l with _ | ⟨a, as⟩
    · exact absurd rfl hl
    · exact ⟨a, rfl, by simp⟩

theorem select_by_policy_default_uniform_witness :
    ∃ v, (select_by_policy [{ id := 1, template_id := 7, text := "A" }]
      { id := 42, kind := "cron", schedule_spec := "0 0 * * *",
        created_at := ⟨0, none⟩, updated_at := ⟨0, none⟩,
        template_id := some 7, selection_policy := "SOMETHING_ELSE" }
      head_rng).1 = some v
    ∧ v ∈ [({ id := 1, template_id := 7, text := "A" } : PostVariant)] :=
  (select_by_policy_default_uniform
    [{ id := 1, template_id := 7, text := "A" }]
    { id := 42, kind := "cron", schedule_spec := "0 0 * * *",
      created_at := ⟨0, none⟩, updated_at := ⟨0, none⟩,
      template_id := some 7, selection_policy := "SOMETHING_ELSE" }
    head_rng (by decide) (by decide) head_rng_sound.1).2.2

/-- Unfolding equation for `select_variant` on a template-bound schedule with
a non-empty active pool. -/
theorem select_variant_eq (rng_of : Nat → PyRandom) (db : VariantDb)
    (schedule : Schedule) (planned_at : PyDateTime) (tid : Nat)
    (htid : schedule.template_id = some tid)
    (hne : db.variants.filter (fun v => v.template_id = tid ∧ v.active) ≠ []) :
    select_variant rng_of db schedule planned_at none =
      (((select_by_policy
          (if apply_no_repeat_window db schedule planned_at
              (db.variants.filter (fun v => v.template_id = tid ∧ v.active)) = []
           then db.variants.filter (fun v => v.template_id = tid ∧ v.active)
           else apply_no_repeat_window db schedule planned_at
              (db.variants.filter (fun v => v.template_id = tid ∧ v.active)))
          schedule
          (rng_of (generate_seed schedule.id
            ((if planned_at.tz = none then planned_at.toUTC
              else planned_at.astimezoneOffset 0).replaceMicrosecond0)))).1,
        generate_seed schedule.id
          ((if planned_at.tz = none then planned_at.toUTC
            else planned_at.astimezoneOffset 0).replaceMicrosecond0)),
       (select_by_policy
          (if apply_no_repeat_window db schedule planned_at
              (db.variants.filter (fun v => v.template_id = tid ∧ v.active)) = []
           then db.variants.filter (fun v => v.template_id = tid ∧ v.active)
           else apply_no_repeat_window db schedule planned_at
              (db.variants.filter (fun v => v.template_id = tid ∧ v.active)))
          schedule
          (rng_of (generate_seed schedule.id
            ((if planned_at.tz = none then planned_at.toUTC
              else planned_at.astimezoneOffset 0).replaceMicrosecond0)))).2) := by
  simp only [select_variant, htid]
  rw [if_neg hne]

/-- C9: when `no_repeat_window > 0` and the active pool is non-empty, the
filter removes exactly the variants named by the most recent
`no_repeat_window` history entries with `selected_at ≤ planned_at` (scoped to
template or schedule per `no_repeat_scope`), and `select_variant` falls back
to the full unfiltered active pool whenever that filter empties the pool — so
it always returns a variant: from the filtered pool when non-empty, else from
the full active pool. -/
theorem select_variant_no_repeat_fallback (rng_of : Nat → PyRandom)
    (db : VariantDb) (schedule : Schedule) (planned_at : PyDateTime) (tid : Nat)
    (htid : schedule.template_id = some tid)
    (hw : 0 < schedule.no_repeat_window)
    (hne : db.variants.filter (fun v => v.template_id = tid ∧ v.active) ≠ [])
    (hsound : ∀ s, (rng_of s).Sound)
    (hweights : ∀ v ∈ db.variants, 1 ≤ v.weight) :
    (∀ variants, apply_no_repeat_window db schedule planned_at variants
        = variants.filter (fun v => v.id ∉ recent_window_ids db schedule planned_at))
    ∧ ∃ v, (select_variant rng_of db schedule planned_at none).1.1 = some v
        ∧ (apply_no_repeat_window db schedule planned_at
            (db.variants.filter (fun v => v.template_id = tid ∧ v.active)) ≠ [] →
          v ∈ apply_no_repeat_window db schedule planned_at
            (db.variants.filter (fun v => v.template_id = tid ∧ v.active)))
        ∧ (apply_no_repeat_window db schedule planned_at
            (db.variants.filter (fun v => v.template_id = tid ∧ v.active)) = [] →
          v ∈ db.variants.filter (fun v => v.template_id = tid ∧ v.active)) := by
  have hfilter : ∀ variants : List PostVariant,
      apply_no_repeat_window db schedule planned_at variants
        = variants.filter (fun v => v.id ∉ recent_window_ids db schedule planned_at) := by
    intro variants
    rw [apply_no_repeat_window, if_neg (not_le.mpr hw)]
  refine ⟨hfilter, ?_⟩
  have hpool2ne :
      (if apply_no_repeat_window db schedule planned_at
          (db.variants.filter (fun v => v.template_id = tid ∧ v.active)) = []
       then db.variants.filter (fun v => v.template_id = tid ∧ v.active)
       else apply_no_repeat_window db schedule planned_at
          (db.variants.filter (fun v => v.template_id = tid ∧ v.active))) ≠ [] := by
    split_ifs with h
    · exact hne
    · exact h
  have hsub : ∀ v ∈ (if apply_no_repeat_window db schedule planned_at
          (db.variants.filter (fun w => w.template_id = tid ∧ w.active)) = []
       then db.variants.filter (fun w => w.template_id = tid ∧ w.active)
       else apply_no_repeat_window db schedule planned_at
          (db.variants.filter (fun w => w.template_id = tid ∧ w.active))),
      v ∈ db.variants.filter (fun w => w.template_id = tid ∧ w.active) := by
    intro v hv
    split_ifs at hv with h
    · exact hv
    · rw [hfilter] at hv
      exact List.mem_of_mem_filter hv
  obtain ⟨v, hv, hm⟩ := select_by_policy_some
    (if apply_no_repeat_window db schedule planned_at
        (db.variants.filter (fun v => v.template_id = tid ∧ v.active)) = []
     then db.variants.filter (fun v => v.template_id = tid ∧ v.active)
     else apply_no_repeat_window db schedule planned_at
        (db.variants.filter (fun v => v.template_id = tid ∧ v.active)))
    schedule
    (rng_of (generate_seed schedule.id
      ((if planned_at.tz = none then planned_at.toUTC
        else planned_at.astimezoneOffset 0).replaceMicrosecond0)))
    hpool2ne (hsound _)
    (fun v hvm => hweights v (List.mem_of_mem_filter (hsub v hvm)))
  refine ⟨v, ?_, ?_, ?_⟩
  · rw [select_variant_eq rng_of db schedule planned_at tid htid hne]
    exact hv
  · intro hp
    rw [if_neg hp] at hm
    exact hm
  · intro hp
    rw [if_pos hp] at hm
    exact hm

theorem select_variant_no_repeat_fallback_witness :
    ∃ v, (select_variant (fun _ => head_rng)
      { variants := [{ id := 1, template_id := 7, text := "A" },
                     { id := 2, template_id := 7, text := "B" }],
        history := [{ id := 1, template_id := 7, variant_id := 1,
                      planned_at := ⟨1906502400000000, none⟩,
                      selected_at := ⟨1906502399000000, none⟩,
                      schedule_id := 42, job_id := 1 }] }
      { id := 42, kind := "cron", schedule_spec := "0 0 * * *",
        created_at := ⟨0, none⟩, updated_at := ⟨0, none⟩,
        template_id := some 7, selection_policy := "RANDOM_UNIFORM",
        no_repeat_window := 1 }
      ⟨1906502400000000, none⟩ none).1.1 = some v :=
  match select_variant_no_repeat_fallback (fun _ => head_rng)
      { variants := [{ id := 1, template_id := 7, text := "A" },
                     { id := 2, template_id := 7, text := "B" }],
        history := [{ id := 1, template_id := 7, variant_id := 1,
                      planned_at := ⟨1906502400000000, none⟩,
                      selected_at := ⟨1906502399000000, none⟩,
                      schedule_id := 42, job_id := 1 }] }
      { id := 42, kind := "cron", schedule_spec := "0 0 * * *",
        created_at := ⟨0, none⟩, updated_at := ⟨0, none⟩,
        template_id := some 7, selection_policy := "RANDOM_UNIFORM",
        no_repeat_window := 1 }
      ⟨1906502400000000, none⟩ 7 rfl (by decide) (by decide)
      (fun _ => head_rng_sound) (by decide) with
  | ⟨_, v, hv, _, _⟩ => ⟨v, hv⟩

/-- `_generate_seed` in closed form: normalization collapses any argument to
the naive-read-as-UTC instant floored to seconds, so the seed is the first 8
bytes of `SHA-256("{schedule_id}:{iso}")` read big-endian, where `iso` is the
UTC second-precision isoformat. -/
theorem generate_seed_normalized (sid : Nat) (dt : PyDateTime) :
    generate_seed sid dt
      = int_from_bytes_be ((sha256Bytes (str_encode
          (toString sid ++ ":"
            ++ PyDateTime.isoformat ⟨PyDateTime.floorSecUsec dt.usec, some 0⟩))).take 8) := by
  unfold generate_seed
  rcases htz : dt.tz with _ | off <;>
    simp [htz, PyDateTime.toUTC, PyDateTime.astimezoneOffset, PyDateTime.replaceMicrosecond0]

/-- Unfolding equation for `select_variant` when the active pool is empty. -/
theorem select_variant_empty (rng_of : Nat → PyRandom) (db : VariantDb)
    (schedule : Schedule) (planned_at : PyDateTime) (tid : Nat)
    (htid : schedule.template_id = some tid)
    (he : db.variants.filter (fun v => v.template_id = tid ∧ v.active) = []) :
    select_variant rng_of db schedule planned_at none = ((none, 0), schedule) := by
  simp only [select_variant, htid]
  rw [if_pos he]

/-- C5 amended: the seed is a pure function of
`(schedule_id, planned_at normalized to UTC at second precision)` — it equals
the first 8 bytes of `SHA-256("{schedule_id}:{iso_second_precision}")` as a
big-endian integer, and two `planned_at` arguments denoting the same
second-precision instant (any timezone representation, any sub-second part)
give the selector the same seed; with `no_repeat_window ≤ 0` the whole
selection is identical too.  (With `no_repeat_window > 0` the *variant* can
differ, because the history filter compares `selected_at` against the raw,
un-normalized `planned_at` — see the counterexample.) -/
theorem select_variant_seed_pure (rng_of : Nat → PyRandom) (db : VariantDb)
    (schedule : Schedule) (dt1 dt2 : PyDateTime)
    (hsame : PyDateTime.floorSecUsec dt1.usec = PyDateTime.floorSecUsec dt2.usec) :
    (∀ sid dt, generate_seed sid dt
      = int_from_bytes_be ((sha256Bytes (str_encode
          (toString sid ++ ":"
            ++ PyDateTime.isoformat ⟨PyDateTime.floorSecUsec dt.usec, some 0⟩))).take 8))
    ∧ (select_variant rng_of db schedule dt1 none).1.2
        = (select_variant rng_of db schedule dt2 none).1.2
    ∧ (schedule.no_repeat_window ≤ 0 →
        select_variant rng_of db schedule dt1 none
          = select_variant rng_of db schedule dt2 none) := by
  have hnorm : (if dt1.tz = none then dt1.toUTC
        else dt1.astimezoneOffset 0).replaceMicrosecond0
      = (if dt2.tz = none then dt2.toUTC
        else dt2.astimezoneOffset 0).replaceMicrosecond0 := by
    rcases h1 : dt1.tz with _ | o1 <;> rcases h2 : dt2.tz with _ | o2 <;>
      simp [h1, h2, PyDateTime.toUTC, PyDateTime.astimezoneOffset,
        PyDateTime.replaceMicrosecond0, hsame]
  refine ⟨generate_seed_normalized, ?_, ?_⟩
  · rcases htid : schedule.template_id with _ | tid
    · simp [select_variant, htid]
    · by_cases hv : db.variants.filter (fun v => v.template_id = tid ∧ v.active) = []
      · rw [select_variant_empty rng_of db schedule dt1 tid htid hv,
          select_variant_empty rng_of db schedule dt2 tid htid hv]
      · rw [select_variant_eq rng_of db schedule dt1 tid htid hv,
          select_variant_eq rng_of db schedule dt2 tid htid hv, hnorm]
  · intro hw
    have hpools : ∀ dt : PyDateTime, ∀ variants : List PostVariant,
        apply_no_repeat_window db schedule dt variants = variants := by
      intro dt variants
      rw [apply_no_repeat_window, if_pos hw]
    rcases htid : schedule.template_id with _ | tid
    · simp [select_variant, htid]
    · by_cases hv : db.variants.filter (fun v => v.template_id = tid ∧ v.active) = []
      · rw [select_variant_empty rng_of db schedule dt1 tid htid hv,
          select_variant_empty rng_of db schedule dt2 tid htid hv]
      · rw [select_variant_eq rng_of db schedule dt1 tid htid hv,
          select_variant_eq rng_of db schedule dt2 tid htid hv, hnorm,
          hpools dt1, hpools dt2]

theorem select_variant_seed_pure_witness :
    (select_variant (fun _ => head_rng)
      { variants := [{ id := 1, template_id := 7, text := "A" }], history := [] }
      { id := 42, kind := "cron", schedule_spec := "0 0 * * *",
        created_at := ⟨0, none⟩, updated_at := ⟨0, none⟩,
        template_id := some 7 }
      ⟨1906502400000000, none⟩ none).1.2
    = (select_variant (fun _ => head_rng)
      { variants := [{ id := 1, template_id := 7, text := "A" }], history := [] }
      { id := 42, kind := "cron", schedule_spec := "0 0 * * *",
        created_at := ⟨0, none⟩, updated_at := ⟨0, none⟩,
        template_id := some 7 }
      ⟨1906502400600000, some 120⟩ none).1.2 :=
  (select_variant_seed_pure (fun _ => head_rng)
    { variants := [{ id := 1, template_id := 7, text := "A" }], history := [] }
    { id := 42, kind := "cron", schedule_spec := "0 0 * * *",
      created_at := ⟨0, none⟩, updated_at := ⟨0, none⟩,
      template_id := some 7 }
    ⟨1906502400000000, none⟩ ⟨1906502400600000, some 120⟩ (by decide)).2.1

/-- C5 as stated is false in its "same variant" part: two `planned_at`
arguments equal at UTC second precision but differing in the sub-second part
can yield *different variants*, because `_apply_no_repeat_window` filters
history by the raw `planned_at` (variant_service.py lines 73-77 pass it
unnormalized).  Here: ROUND_ROBIN, `no_repeat_window = 1`, one history row at
...400.5s; `planned_at = ...400.0s` excludes nothing (picks variant 1) while
`planned_at = ...400.6s` excludes variant 1 (picks variant 2).  The seed is
the same for both.  The PRNG instance is irrelevant: the ROUND_ROBIN branch
never draws from it. -/
theorem select_variant_subsecond_counterexample :
    PyDateTime.floorSecUsec 1906502400000000
      = PyDateTime.floorSecUsec 1906502400600000
    ∧ (select_variant (fun _ => head_rng)
      { variants := [{ id := 1, template_id := 7, text := "A" },
                     { id := 2, template_id := 7, text := "B" }],
        history := [{ id := 1, template_id := 7, variant_id := 1,
                      planned_at := ⟨1906502400000000, none⟩,
                      selected_at := ⟨1906502400500000, none⟩,
                      schedule_id := 42, job_id := 1 }] }
      { id := 42, kind := "cron", schedule_spec := "0 0 * * *",
        created_at := ⟨0, none⟩, updated_at := ⟨0, none⟩,
        template_id := some 7, selection_policy := "ROUND_ROBIN",
        no_repeat_window := 1 }
      ⟨1906502400000000, none⟩ none).1.1
    ≠ (select_variant (fun _ => head_rng)
      { variants := [{ id := 1, template_id := 7, text := "A" },
                     { id := 2, template_id := 7, text := "B" }],
        history := [{ id := 1, template_id := 7, variant_id := 1,
                      planned_at := ⟨1906502400000000, none⟩,
                      selected_at := ⟨1906502400500000, none⟩,
                      schedule_id := 42, job_id := 1 }] }
      { id := 42, kind := "cron", schedule_spec := "0 0 * * *",
        created_at := ⟨0, none⟩, updated_at := ⟨0, none⟩,
        template_id := some 7, selection_policy := "ROUND_ROBIN",
        no_repeat_window := 1 }
      ⟨1906502400600000, none⟩ none).1.1 := by
  refine ⟨by decide, by decide⟩
